import Mathlib

/-!
Verification of the onelogin-aws-connector assertion-exchange client.

The repository contains the login orchestration (`cmd/login/login.go`) and
the test suite of the `samlassertion` package.  The `samlassertion`
implementation itself (response classifier, device model expander,
verification poller) is not among the provided sources, so those parts are
modelled from the specification, constrained by the repository tests
that exercise them.  `login.go` is embedded directly from its source.
-/

namespace SamlAssertion

/-- Status block of a Generate response, from the test fixtures
(`GenerateResponseStatus` with fields Type, Message, Error, Code). -/
structure GenerateResponseStatus where
  typ : String
  message : String
  error : Bool
  code : Nat
deriving DecidableEq, Repr

/-- Status block of a VerifyFactor response, from the test fixtures
(`VerifyFactorResponseStatus` with fields Type, Message, Error, Code). -/
structure VerifyFactorResponseStatus where
  typ : String
  message : String
  error : Bool
  code : Nat
deriving DecidableEq, Repr

/-- A device entry after expansion, from the test fixtures
(`GenerateResponseFactorDevice` with fields DeviceID, DeviceType,
RequireOTPToken). -/
structure GenerateResponseFactorDevice where
  deviceID : Int
  deviceType : String
  requireOTPToken : Bool
deriving DecidableEq, Repr

/-- User block of a factor, from the test fixtures
(`GenerateResponseFactorUser`). -/
structure GenerateResponseFactorUser where
  id : Int
  username : String
  email : String
  firstName : String
  lastName : String
deriving DecidableEq, Repr

/-- A factor of a Generate response, from the test fixtures
(`GenerateResponseFactor`). -/
structure GenerateResponseFactor where
  stateToken : String
  devices : List GenerateResponseFactorDevice
  callbackURL : String
  user : Option GenerateResponseFactorUser
deriving DecidableEq, Repr

/-- Result of Generate, from the test fixtures (`GenerateResponse` with
fields Status, SAML, Factors). -/
structure GenerateResponse where
  status : GenerateResponseStatus
  saml : String
  factors : List GenerateResponseFactor
deriving DecidableEq, Repr

/-- Result of VerifyFactor, from the test fixtures
(`VerifyFactorResponse` with fields Status, SAML). -/
structure VerifyFactorResponse where
  status : VerifyFactorResponseStatus
  saml : String
deriving DecidableEq, Repr

/-- Request body of VerifyFactor, from the test fixtures and
`login.go` (`VerifyFactorRequest`). -/
structure VerifyFactorRequest where
  appID : String
  deviceID : String
  stateToken : String
  otpToken : String
  doNotNotify : Bool
deriving DecidableEq, Repr

/-- Error taxonomy of the client, from the specification (section 7):
ProtocolError, AuthenticationError carrying the provider message and code,
MFATimeoutError. -/
inductive SAMLError where
  | protocolError
  | authenticationError (message : String) (code : Nat)
  | mfaTimeoutError
deriving DecidableEq, Repr

/-- A raw device record exactly as the provider sends it, before
expansion (JSON fields device_id, device_type in the test fixtures). -/
structure RawDevice where
  deviceID : Int
  deviceType : String
deriving DecidableEq, Repr

/-- A raw factor record as the provider sends it (JSON fields
state_token, devices, callback_url, user in the test fixtures). -/
structure RawFactor where
  stateToken : String
  devices : List RawDevice
  callbackURL : String
  user : Option GenerateResponseFactorUser
deriving DecidableEq, Repr

/-- The dynamically shaped `data` field of a Generate reply: a SAML
string, a sequence of raw factors, or absent. -/
inductive GenerateData where
  | str (s : String)
  | factors (fs : List RawFactor)
  | absent
deriving DecidableEq, Repr

/-- Parsed JSON body of a Generate reply. -/
structure RawGenerateBody where
  status : GenerateResponseStatus
  data : GenerateData
deriving DecidableEq, Repr

/-- Parsed JSON body of a VerifyFactor reply (`data` present only on
success). -/
structure RawVerifyBody where
  status : VerifyFactorResponseStatus
  data : Option String
deriving DecidableEq, Repr

/-- An HTTP reply to Generate: status code plus the body, `none` when the
body is not valid JSON. -/
structure GenerateReply where
  code : Nat
  body : Option RawGenerateBody
deriving DecidableEq, Repr

/-- An HTTP reply to VerifyFactor: status code plus the body, `none` when
the body is not valid JSON. -/
structure VerifyReply where
  code : Nat
  body : Option RawVerifyBody
deriving DecidableEq, Repr

/-- Modelled from the spec: the Device Model Expander (sections 3 and
4.2), whose implementation is not among the provided sources.  A raw
device of type "OneLogin Protect" expands into the original entry with
requireOTPToken true followed by a synthetic "Notify to OneLogin Protect"
entry with requireOTPToken false and the same deviceID; any other type
maps to a single entry with requireOTPToken true.  Behaviour matches the
test cases "MFA Required" and "MFA Required with OneLogin Protect". -/
def expandDevice (d : RawDevice) : List GenerateResponseFactorDevice :=
  if d.deviceType = "OneLogin Protect" then
    [ { deviceID := d.deviceID, deviceType := d.deviceType, requireOTPToken := true },
      { deviceID := d.deviceID, deviceType := "Notify to OneLogin Protect",
        requireOTPToken := false } ]
  else
    [ { deviceID := d.deviceID, deviceType := d.deviceType, requireOTPToken := true } ]

/-- Modelled from the spec: expansion of a whole raw device list, applied
device by device in order (section 3: deterministic and order-preserving,
the two entries of a Protect device contiguous). -/
def expandDevices (ds : List RawDevice) : List GenerateResponseFactorDevice :=
  ds.flatMap expandDevice

/-- Modelled from the spec: expansion of one raw factor into a Factor
(section 4.1: one Factor per raw element, its device list expanded). -/
def expandFactor (f : RawFactor) : GenerateResponseFactor :=
  { stateToken := f.stateToken
    devices := expandDevices f.devices
    callbackURL := f.callbackURL
    user := f.user }

/-- Modelled from the spec: the Generate operation (section 4.1), whose
implementation is not among the provided sources.  An unparseable body
fails with ProtocolError; a parsed body with status.error true fails with
AuthenticationError carrying the provider message and code.  The HTTP
status code alone does not cause failure: the repository test case
"MFA Required" requires an HTTP 400 reply with error:false to produce a
populated result, so the spec sentence demanding failure on every non-2xx
code cannot be implemented and classification follows the tests.
String data is the final SAML assertion; sequence data becomes the
expanded factors; absent data yields the zero-value response, matching
Go JSON decoding of a body with no data field. -/
def generate (reply : GenerateReply) : Option GenerateResponse × Option SAMLError :=
  match reply.body with
  | none => (none, some .protocolError)
  | some raw =>
    if raw.status.error then
      (none, some (.authenticationError raw.status.message raw.status.code))
    else
      match raw.data with
      | .str s => (some { status := raw.status, saml := s, factors := [] }, none)
      | .factors fs =>
          (some { status := raw.status, saml := "", factors := fs.map expandFactor }, none)
      | .absent => (some { status := raw.status, saml := "", factors := [] }, none)

/-- Classification of one VerifyFactor reply. -/
inductive VerifyOutcome where
  | success (resp : VerifyFactorResponse)
  | pending
  | failure (e : SAMLError)
deriving DecidableEq, Repr

/-- Modelled from the spec: classification of a single VerifyFactor reply
(section 4.3 steps 2, 3, 4 and 6), whose implementation is not among the
provided sources.  An unparseable body is ProtocolError; status.error true
is AuthenticationError with the provider message and code; status.type
"success" with a data string is the terminal success; HTTP 200 with a
non-error "pending" status and no data is pending; any other combination
is terminal AuthenticationError.  As with Generate, a non-2xx code alone
is not a failure (the spec sentence demanding that is contradicted by the
repository Generate tests, and classification is shared per section 4.4). -/
def classifyVerify (reply : VerifyReply) : VerifyOutcome :=
  match reply.body with
  | none => .failure .protocolError
  | some raw =>
    if raw.status.error then
      .failure (.authenticationError raw.status.message raw.status.code)
    else
      match raw.data with
      | some s =>
          if raw.status.typ = "success" then
            .success { status := raw.status, saml := s }
          else
            .failure (.authenticationError raw.status.message raw.status.code)
      | none =>
          if raw.status.typ = "pending" ∧ reply.code = 200 then
            .pending
          else
            .failure (.authenticationError raw.status.message raw.status.code)

/-- Modelled from the spec: the retry request of the Verification Poller
(section 4.3 step 4): doNotNotify forced to true and otpToken forced
empty on every retry after the first.  Matches the test server check that
every polled request equals notifyRequest. -/
def forceRetry (req : VerifyFactorRequest) : VerifyFactorRequest :=
  { req with doNotNotify := true, otpToken := "" }

/-- Modelled from the spec: the bounded polling loop of the Verification
Poller (section 4.3), whose implementation is not among the provided
sources.  `endpoint i` is the reply the provider gives to the i-th
contact, `attempt` is the number of the next contact, `remaining` the
attempts left of the maxAttempts budget.  Returns the list of requests
actually sent, in order, together with the Go-style result pair.
Exhausting the budget while still pending is MFATimeoutError.  The sleep
of attemptInterval between attempts has no observable effect on the
result and is not modelled. -/
def verifyLoop (endpoint : Nat → VerifyReply) :
    VerifyFactorRequest → Nat → Nat →
      List VerifyFactorRequest × (Option VerifyFactorResponse × Option SAMLError)
  | _, _, 0 => ([], (none, some .mfaTimeoutError))
  | req, attempt, r + 1 =>
    match classifyVerify (endpoint attempt) with
    | .success resp => ([req], (some resp, none))
    | .failure e => ([req], (none, some e))
    | .pending =>
        let rest := verifyLoop endpoint (forceRetry req) (attempt + 1) r
        (req :: rest.1, rest.2)

/-- Modelled from the spec: the VerifyFactor operation (section 4.3).
Sends the request as-is on attempt 1 and runs the bounded polling loop
with at most `maxAttempts` provider contacts. -/
def verifyFactor (endpoint : Nat → VerifyReply) (req : VerifyFactorRequest)
    (maxAttempts : Nat) :
    List VerifyFactorRequest × (Option VerifyFactorResponse × Option SAMLError) :=
  verifyLoop endpoint req 1 maxAttempts

end SamlAssertion

namespace Login

open SamlAssertion

/-- Login parameters, from `login.go` (`Parameters`). -/
structure Parameters where
  usernameOrEmail : String
  password : String
  appID : String
  subdomain : String
  principalArn : String
  roleArn : String
  durationSeconds : Int
deriving DecidableEq, Repr

/-- The interactive callback contract, from `login.go` (`Event`):
ChooseDeviceIndex returns an index or an error, InputMFAToken returns a
token or an error. -/
structure Event where
  chooseDeviceIndex : List GenerateResponseFactorDevice → Except String Int
  inputMFAToken : Except String String

/-- An error surfaced by the login flow: either an error from an Event
callback or an error from the samlassertion client. -/
inductive LoginError where
  | eventError (e : String)
  | samlError (e : SAMLError)
deriving DecidableEq, Repr

/-- Outcome of the login flow up to role assumption: a Go panic
(out-of-range slice index or nil dereference), an error returned to the
caller, or reaching assumeRole with a SAML assertion. -/
inductive LoginOutcome where
  | panic
  | failed (e : LoginError)
  | assumedRole (saml : String)
deriving DecidableEq, Repr

/-- Observable interaction record of one login run: whether each Event
callback was invoked and the VerifyFactor request that was built, if
any. -/
structure LoginTrace where
  choseDevice : Bool
  promptedOTP : Bool
  sentRequest : Option VerifyFactorRequest
deriving DecidableEq, Repr

/-- Go slice indexing `devices[selected]` with a Go int index: `none`
exactly when Go would panic with index out of range (negative or too
large). -/
def deviceAt (devices : List GenerateResponseFactorDevice) (selected : Int) :
    Option GenerateResponseFactorDevice :=
  if selected < 0 then none else devices.get? selected.toNat

/-- From `login.go` lines 91-100 (`generateAssertionWithMFA`): the
VerifyFactor request built for a chosen device; DeviceID is the decimal
string of the device id (strconv.Itoa) and DoNotNotify is set exactly
when the OTP token is non-empty. -/
def generateAssertionWithMFA (params : Parameters) (deviceId : Int)
    (stateToken : String) (otpToken : String) : VerifyFactorRequest :=
  { appID := params.appID
    deviceID := toString deviceId
    stateToken := stateToken
    otpToken := otpToken
    doNotNotify := otpToken ≠ "" }

/-- From `login.go` lines 71-76: build the VerifyFactor request for the
chosen device and token and hand it to the client; an error from the
client is returned to the caller, otherwise the flow proceeds to
assumeRole with the verified SAML.  `verifyFn` abstracts the
samlassertion client the Login struct carries. -/
def loginSend (params : Parameters)
    (verifyFn : VerifyFactorRequest → Option VerifyFactorResponse × Option SAMLError)
    (factor : GenerateResponseFactor) (chose prompted : Bool)
    (device : GenerateResponseFactorDevice) (token : String) :
    LoginTrace × LoginOutcome :=
  let req := generateAssertionWithMFA params device.deviceID factor.stateToken token
  match verifyFn req with
  | (_, some e) => (⟨chose, prompted, some req⟩, .failed (.samlError e))
  | (some verified, none) => (⟨chose, prompted, some req⟩, .assumedRole verified.saml)
  | (none, none) => (⟨chose, prompted, some req⟩, .panic)

/-- From `login.go` lines 62-76: given the factor, whether the selection
callback ran, and the selected index, fetch the device (panicking when
out of range), prompt for an OTP token exactly when the device requires
one, then send through `loginSend`. -/
def loginVerify (params : Parameters) (ev : Event)
    (verifyFn : VerifyFactorRequest → Option VerifyFactorResponse × Option SAMLError)
    (factor : GenerateResponseFactor) (chose : Bool) (selected : Int) :
    LoginTrace × LoginOutcome :=
  match deviceAt factor.devices selected with
  | none => (⟨chose, false, none⟩, .panic)
  | some device =>
    if device.requireOTPToken then
      match ev.inputMFAToken with
      | .error e => (⟨chose, true, none⟩, .failed (.eventError e))
      | .ok token => loginSend params verifyFn factor chose true device token
    else
      loginSend params verifyFn factor chose false device ""

/-- From `login.go` lines 46-78 (`Login.Login`), with the network
Generate call abstracted into its response `resp`: when the assertion
carries a non-empty SAML no MFA is attempted; otherwise Factors[0] is
indexed unconditionally, the device-selection callback runs only when
more than one device is present (index 0 otherwise), and the flow
continues through `loginVerify`. -/
def login (params : Parameters) (ev : Event)
    (verifyFn : VerifyFactorRequest → Option VerifyFactorResponse × Option SAMLError)
    (resp : GenerateResponse) : LoginTrace × LoginOutcome :=
  if resp.saml ≠ "" then
    (⟨false, false, none⟩, .assumedRole resp.saml)
  else
    match resp.factors.get? 0 with
    | none => (⟨false, false, none⟩, .panic)
    | some factor =>
      if factor.devices.length > 1 then
        match ev.chooseDeviceIndex factor.devices with
        | .error e => (⟨true, false, none⟩, .failed (.eventError e))
        | .ok selected =>
            let r := loginVerify params ev verifyFn factor true selected
            (r.1, r.2)
      else
        loginVerify params ev verifyFn factor false 0

end Login

namespace SamlAssertion

/-! Concrete fixtures taken from the repository test suite. -/

/-- User block shared by the MFA test fixtures. -/
def fixtureUser : GenerateResponseFactorUser :=
  { id := 12345678
    username := "username"
    email := "username@example.com"
    firstName := "名"
    lastName := "姓" }

/-- Status of the "MFA Required" replies: HTTP is 400, yet error is false
and the embedded code is 200. -/
def mfaStatus : GenerateResponseStatus :=
  { typ := "success"
    message := "MFA is required for this user"
    error := false
    code := 200 }

/-- Raw factor of the "MFA Required" test case (Google Authenticator). -/
def gaRawFactor : RawFactor :=
  { stateToken := "5xxx604x8xx9x694xx860173xxx3x78x3x870x56"
    devices := [{ deviceID := 666666, deviceType := "Google Authenticator" }]
    callbackURL := "https://api.us.onelogin.com/api/1/saml_assertion/verify_factor"
    user := some fixtureUser }

/-- Raw factor of the "MFA Required with OneLogin Protect" test case. -/
def protectRawFactor : RawFactor :=
  { gaRawFactor with
    devices := [{ deviceID := 666666, deviceType := "OneLogin Protect" }] }

/-- The "MFA Required" reply: HTTP 400, error false, one raw factor. -/
def mfaRequiredReply : GenerateReply :=
  { code := 400, body := some { status := mfaStatus, data := .factors [gaRawFactor] } }

/-- The "MFA Required with OneLogin Protect" reply. -/
def protectReply : GenerateReply :=
  { code := 400, body := some { status := mfaStatus, data := .factors [protectRawFactor] } }

/-- The "success" Generate reply. -/
def successGenReply : GenerateReply :=
  { code := 200
    body := some
      { status := { typ := "success", message := "Success", error := false, code := 200 }
        data := .str "Base64 Encoded SAML Data" } }

/-- The "error 40x" Generate reply: HTTP 400 with error true. -/
def error40xGenReply : GenerateReply :=
  { code := 400
    body := some
      { status := { typ := "bad request"
                    message := "Authorization Information is incorrect"
                    error := true, code := 400 }
        data := .absent } }

/-- The "invalid JSON" Generate reply: HTTP 200, unparseable body. -/
def invalidGenReply : GenerateReply := { code := 200, body := none }

/-- The "success" VerifyFactor reply. -/
def vSuccessReply : VerifyReply :=
  { code := 200
    body := some
      { status := { typ := "success", message := "Success", error := false, code := 200 }
        data := some "Base64 Encoded SAML Data" } }

/-- The "notify error" VerifyFactor reply: HTTP 200, pending, no data. -/
def vPendingReply : VerifyReply :=
  { code := 200
    body := some
      { status := { typ := "pending"
                    message := "Authentication pending on OL Protect"
                    error := false, code := 200 }
        data := none } }

/-- The "error 40x" VerifyFactor reply. -/
def vError40xReply : VerifyReply :=
  { code := 400
    body := some
      { status := { typ := "bad request"
                    message := "Authorization Information is incorrect"
                    error := true, code := 400 }
        data := none } }

/-- The "invalid JSON" VerifyFactor reply. -/
def invalidVerifyReply : VerifyReply := { code := 200, body := none }

/-- The plain VerifyFactor request of the tests. -/
def testRequest : VerifyFactorRequest :=
  { appID := "app-id", deviceID := "device_id", stateToken := "state_token"
    otpToken := "otp_token", doNotNotify := false }

/-- The notify VerifyFactor request of the tests: no OTP token, do not
notify. -/
def notifyRequest : VerifyFactorRequest :=
  { appID := "app-id", deviceID := "device_id", stateToken := "state_token"
    otpToken := "", doNotNotify := true }

/-! Sanity checks mirroring the repository test cases. -/

example :
    generate successGenReply =
      (some { status := { typ := "success", message := "Success", error := false, code := 200 }
              saml := "Base64 Encoded SAML Data", factors := [] }, none) := by
  decide

example :
    generate mfaRequiredReply =
      (some { status := mfaStatus
              saml := ""
              factors := [ { stateToken := gaRawFactor.stateToken
                             devices := [ { deviceID := 666666
                                            deviceType := "Google Authenticator"
                                            requireOTPToken := true } ]
                             callbackURL := gaRawFactor.callbackURL
                             user := some fixtureUser } ] }, none) := by
  decide

example :
    generate protectReply =
      (some { status := mfaStatus
              saml := ""
              factors := [ { stateToken := protectRawFactor.stateToken
                             devices := [ { deviceID := 666666
                                            deviceType := "OneLogin Protect"
                                            requireOTPToken := true },
                                          { deviceID := 666666
                                            deviceType := "Notify to OneLogin Protect"
                                            requireOTPToken := false } ]
                             callbackURL := protectRawFactor.callbackURL
                             user := some fixtureUser } ] }, none) := by
  decide

example : generate invalidGenReply = (none, some .protocolError) := by decide

example :
    generate error40xGenReply =
      (none, some (.authenticationError "Authorization Information is incorrect" 400)) := by
  decide

example :
    verifyFactor (fun _ => vSuccessReply) testRequest 2 =
      ([testRequest],
        (some { status := { typ := "success", message := "Success", error := false, code := 200 }
                saml := "Base64 Encoded SAML Data" }, none)) := by
  decide

example :
    verifyFactor (fun _ => vPendingReply) notifyRequest 2 =
      ([notifyRequest, notifyRequest], (none, some .mfaTimeoutError)) := by
  decide

example :
    verifyFactor (fun _ => vError40xReply) testRequest 2 =
      ([testRequest],
        (none, some (.authenticationError "Authorization Information is incorrect" 400))) := by
  decide

example :
    verifyFactor (fun _ => invalidVerifyReply) testRequest 2 =
      ([testRequest], (none, some .protocolError)) := by
  decide

/-! Helper lemmas about the polling loop, shared by several results. -/

/-- When every contacted attempt classifies as pending, the loop spends
its whole budget, sending one request per attempt, and ends in
MFATimeoutError. -/
theorem verifyLoop_pending (endpoint : Nat → VerifyReply) :
    ∀ (r a : Nat) (req : VerifyFactorRequest),
      (∀ i, a ≤ i → i < a + r → classifyVerify (endpoint i) = .pending) →
      (verifyLoop endpoint req a r).1.length = r ∧
        (verifyLoop endpoint req a r).2 = (none, some .mfaTimeoutError)
  | 0, _, _, _ => by simp [verifyLoop]
  | r + 1, a, req, h => by
      have ha : classifyVerify (endpoint a) = .pending := h a le_rfl (by omega)
      have ih := verifyLoop_pending endpoint r (a + 1) (forceRetry req)
        (fun i hi1 hi2 => h i (by omega) (by omega))
      simp [verifyLoop, ha, ih.1, ih.2]

/-- Once the request carried by the loop is in forced form, every request
it sends from then on is in forced form. -/
theorem verifyLoop_all_forced (endpoint : Nat → VerifyReply) :
    ∀ (r a : Nat) (req : VerifyFactorRequest),
      req.doNotNotify = true → req.otpToken = "" →
      ∀ x ∈ (verifyLoop endpoint req a r).1, x.doNotNotify = true ∧ x.otpToken = ""
  | 0, _, _, _, _, _, hx => by simp [verifyLoop] at hx
  | r + 1, a, req, hdnn, hotp, x, hx => by
      cases hc : classifyVerify (endpoint a) with
      | success resp =>
          simp [verifyLoop, hc] at hx
          exact hx ▸ ⟨hdnn, hotp⟩
      | failure e =>
          simp [verifyLoop, hc] at hx
          exact hx ▸ ⟨hdnn, hotp⟩
      | pending =>
          simp [verifyLoop, hc] at hx
          rcases hx with hx | hx
          · exact hx ▸ ⟨hdnn, hotp⟩
          · exact verifyLoop_all_forced endpoint r (a + 1) (forceRetry req) rfl rfl x hx

/-- The loop never pairs a populated result with an error. -/
theorem verifyLoop_exclusive (endpoint : Nat → VerifyReply) :
    ∀ (r a : Nat) (req : VerifyFactorRequest),
      ((verifyLoop endpoint req a r).2.2).isSome →
      (verifyLoop endpoint req a r).2.1 = none
  | 0, _, _, _ => by simp [verifyLoop]
  | r + 1, a, req, h => by
      cases hc : classifyVerify (endpoint a) with
      | success resp => simp [verifyLoop, hc] at h
      | failure e => simp [verifyLoop, hc]
      | pending =>
          simp only [verifyLoop, hc] at h ⊢
          exact verifyLoop_exclusive endpoint r (a + 1) (forceRetry req) h

/-- When the loop returns a populated result, the last contacted attempt
classified as success with exactly that response. -/
theorem verifyLoop_success_last (endpoint : Nat → VerifyReply) :
    ∀ (r a : Nat) (req : VerifyFactorRequest) (res : VerifyFactorResponse),
      (verifyLoop endpoint req a r).2.1 = some res →
      classifyVerify (endpoint (a + (verifyLoop endpoint req a r).1.length - 1)) =
        .success res
  | 0, _, _, _, h => by simp [verifyLoop] at h
  | r + 1, a, req, res, h => by
      cases hc : classifyVerify (endpoint a) with
      | success resp =>
          simp only [verifyLoop, hc] at h ⊢
          simp only [List.length_singleton, Nat.add_sub_cancel]
          simp at h
          exact h ▸ hc
      | failure e => simp [verifyLoop, hc] at h
      | pending =>
          simp only [verifyLoop, hc] at h ⊢
          have ih := verifyLoop_success_last endpoint r (a + 1) (forceRetry req) res h
          have hidx :
              a + ((verifyLoop endpoint (forceRetry req) (a + 1) r).1.length + 1) - 1 =
                a + 1 + (verifyLoop endpoint (forceRetry req) (a + 1) r).1.length - 1 := by
            omega
          simpa [hidx] using ih

/-- C1 counterexample: the claim says every non-2xx reply fails with
AuthenticationError and yields no populated result, but the repository
test case "MFA Required" replies with HTTP 400, error false, and the
classifier returns a populated challenge result with no error. -/
theorem generate_mfa400_counterexample :
    (mfaRequiredReply.code < 200 ∨ 299 < mfaRequiredReply.code) ∧
      ((generate mfaRequiredReply).1).isSome = true ∧
      (generate mfaRequiredReply).2 = none := by
  decide

/-- C1 (amended): whenever the parsed status.error flag is true, Generate
and VerifyFactor fail with AuthenticationError carrying the provider
status.message and status.code, and return no result; the HTTP status
code alone does not cause failure. -/
theorem errorFlag_authenticationError (reply : GenerateReply) (vreply : VerifyReply)
    (graw : RawGenerateBody) (vraw : RawVerifyBody)
    (req : VerifyFactorRequest) (n : Nat)
    (hg : reply.body = some graw) (hge : graw.status.error = true)
    (hv : vreply.body = some vraw) (hve : vraw.status.error = true)
    (hn : 1 ≤ n) :
    generate reply =
      (none, some (.authenticationError graw.status.message graw.status.code)) ∧
    verifyFactor (fun _ => vreply) req n =
      ([req], (none, some (.authenticationError vraw.status.message vraw.status.code))) := by
  obtain ⟨m, rfl⟩ : ∃ m, n = m + 1 := ⟨n - 1, by omega⟩
  have hc : classifyVerify vreply =
      .failure (.authenticationError vraw.status.message vraw.status.code) := by
    simp [classifyVerify, hv, hve]
  constructor
  · simp [generate, hg, hge]
  · simp [verifyFactor, verifyLoop, hc]

/-- Witness for C1 (amended) at the "error 40x" test replies. -/
theorem errorFlag_authenticationError_witness :
    generate error40xGenReply =
      (none, some (.authenticationError "Authorization Information is incorrect" 400)) ∧
    verifyFactor (fun _ => vError40xReply) testRequest 2 =
      ([testRequest],
        (none, some (.authenticationError "Authorization Information is incorrect" 400))) :=
  errorFlag_authenticationError error40xGenReply vError40xReply
    (RawGenerateBody.mk { typ := "bad request"
                          message := "Authorization Information is incorrect"
                          error := true, code := 400 } .absent)
    (RawVerifyBody.mk { typ := "bad request"
                        message := "Authorization Information is incorrect"
                        error := true, code := 400 } none)
    testRequest 2 rfl rfl rfl rfl (by decide)

/-- C2: device expansion is deterministic and order-preserving; a raw
device of type "OneLogin Protect" expands into exactly the two contiguous
entries (original type with requireOTPToken true, then the synthetic
"Notify to OneLogin Protect" entry with requireOTPToken false, same
deviceID); any other raw device expands into exactly one entry with
requireOTPToken true; a raw device list expands device by device in
order. -/
theorem expandDevice_spec (d : RawDevice) :
    (d.deviceType = "OneLogin Protect" →
      expandDevice d =
        [ { deviceID := d.deviceID, deviceType := d.deviceType, requireOTPToken := true },
          { deviceID := d.deviceID, deviceType := "Notify to OneLogin Protect",
            requireOTPToken := false } ]) ∧
    (d.deviceType ≠ "OneLogin Protect" →
      expandDevice d =
        [ { deviceID := d.deviceID, deviceType := d.deviceType,
            requireOTPToken := true } ]) ∧
    (∀ ds : List RawDevice, expandDevices ds = (ds.map expandDevice).flatten) := by
  refine ⟨fun h => ?_, fun h => ?_, fun ds => ?_⟩
  · simp [expandDevice, h]
  · simp [expandDevice, h]
  · simp [expandDevices, List.flatMap_def]

/-- Witness for C2 at the two device types of the test fixtures. -/
theorem expandDevice_spec_witness :
    expandDevice { deviceID := 666666, deviceType := "OneLogin Protect" } =
      [ { deviceID := 666666, deviceType := "OneLogin Protect", requireOTPToken := true },
        { deviceID := 666666, deviceType := "Notify to OneLogin Protect",
          requireOTPToken := false } ] ∧
    expandDevice { deviceID := 666666, deviceType := "Google Authenticator" } =
      [ { deviceID := 666666, deviceType := "Google Authenticator",
          requireOTPToken := true } ] :=
  ⟨(expandDevice_spec { deviceID := 666666, deviceType := "OneLogin Protect" }).1 rfl,
   (expandDevice_spec { deviceID := 666666, deviceType := "Google Authenticator" }).2.1
     (by decide)⟩

/-- C3: when the provider answers every attempt with a pending reply,
each pending reply consumes exactly one attempt, the endpoint is
contacted exactly maxAttempts times, and the call fails with
MFATimeoutError. -/
theorem verifyFactor_pending_timeout (endpoint : Nat → VerifyReply)
    (req : VerifyFactorRequest) (n : Nat)
    (h : ∀ i, 1 ≤ i → i ≤ n → classifyVerify (endpoint i) = .pending) :
    (verifyFactor endpoint req n).1.length = n ∧
      (verifyFactor endpoint req n).2 = (none, some .mfaTimeoutError) :=
  verifyLoop_pending endpoint n 1 req (fun i hi1 hi2 => h i hi1 (by omega))

/-- Witness for C3: the "notify error" scenario with maxAttempts 2. -/
theorem verifyFactor_pending_timeout_witness :
    (verifyFactor (fun _ => vPendingReply) notifyRequest 2).1.length = 2 ∧
      (verifyFactor (fun _ => vPendingReply) notifyRequest 2).2 =
        (none, some .mfaTimeoutError) :=
  verifyFactor_pending_timeout (fun _ => vPendingReply) notifyRequest 2
    (fun _ _ _ => (by decide : classifyVerify vPendingReply = .pending))

/-- C4: the poller never re-notifies — every request sent after the
first carries doNotNotify true and an empty otpToken, whatever the
original request carried. -/
theorem verifyFactor_never_renotify (endpoint : Nat → VerifyReply)
    (req : VerifyFactorRequest) (n : Nat) :
    ∀ x ∈ ((verifyFactor endpoint req n).1).tail,
      x.doNotNotify = true ∧ x.otpToken = "" := by
  intro x hx
  match n with
  | 0 => simp [verifyFactor, verifyLoop] at hx
  | r + 1 =>
    cases hc : classifyVerify (endpoint 1) with
    | success resp => simp [verifyFactor, verifyLoop, hc] at hx
    | failure e => simp [verifyFactor, verifyLoop, hc] at hx
    | pending =>
        simp only [verifyFactor, verifyLoop, hc, List.tail_cons] at hx
        exact verifyLoop_all_forced endpoint r 2 (forceRetry req) rfl rfl x hx

/-- Witness for C4: with an always-pending endpoint and the non-forced
test request, the one retry sent is the forced request. -/
theorem verifyFactor_never_renotify_witness :
    ((verifyFactor (fun _ => vPendingReply) testRequest 2).1).tail =
      [forceRetry testRequest] ∧
    (forceRetry testRequest).doNotNotify = true ∧
      (forceRetry testRequest).otpToken = "" :=
  ⟨by decide,
   verifyFactor_never_renotify (fun _ => vPendingReply) testRequest 2
     (forceRetry testRequest) (by decide)⟩

/-- C5: an unparseable response body always yields ProtocolError and no
result, for Generate and for VerifyFactor, whatever the HTTP status
code. -/
theorem invalid_json_protocolError (code : Nat) (req : VerifyFactorRequest)
    (n : Nat) (hn : 1 ≤ n) :
    generate { code := code, body := none } = (none, some .protocolError) ∧
    verifyFactor (fun _ => { code := code, body := none }) req n =
      ([req], (none, some .protocolError)) := by
  obtain ⟨m, rfl⟩ : ∃ m, n = m + 1 := ⟨n - 1, by omega⟩
  exact ⟨rfl, by simp [verifyFactor, verifyLoop, classifyVerify]⟩

/-- Witness for C5 at the "invalid JSON" test cases (HTTP 200). -/
theorem invalid_json_protocolError_witness :
    generate { code := 200, body := none } = (none, some .protocolError) ∧
    verifyFactor (fun _ => { code := 200, body := none }) testRequest 2 =
      ([testRequest], (none, some .protocolError)) :=
  invalid_json_protocolError 200 testRequest 2 (by decide)

/-- C6: a success reply (status.type "success", non-error, with a data
string) on the first attempt makes VerifyFactor return immediately — one
provider contact, result carrying exactly that data string as the SAML
assertion, no error; and the success exit is the only one: any populated
result of the poller comes from a success classification of the last
contacted attempt. -/
theorem verifyFactor_success_exit :
    (∀ (endpoint : Nat → VerifyReply) (req : VerifyFactorRequest) (n : Nat)
        (raw : RawVerifyBody) (s : String),
        1 ≤ n → (endpoint 1).body = some raw → raw.status.error = false →
        raw.status.typ = "success" → raw.data = some s →
        verifyFactor endpoint req n =
          ([req], (some { status := raw.status, saml := s }, none))) ∧
    (∀ (endpoint : Nat → VerifyReply) (req : VerifyFactorRequest) (n : Nat)
        (res : VerifyFactorResponse),
        (verifyFactor endpoint req n).2.1 = some res →
        classifyVerify (endpoint ((verifyFactor endpoint req n).1.length)) =
          .success res) := by
  constructor
  · intro endpoint req n raw s hn hb he ht hd
    obtain ⟨m, rfl⟩ : ∃ m, n = m + 1 := ⟨n - 1, by omega⟩
    have hc : classifyVerify (endpoint 1) = .success { status := raw.status, saml := s } := by
      simp [classifyVerify, hb, he, ht, hd]
    simp [verifyFactor, verifyLoop, hc]
  · intro endpoint req n res h
    simpa using verifyLoop_success_last endpoint n 1 req res h

/-- Witness for C6 at the "success" test scenario. -/
theorem verifyFactor_success_exit_witness :
    verifyFactor (fun _ => vSuccessReply) testRequest 2 =
      ([testRequest],
        (some { status := { typ := "success", message := "Success"
                            error := false, code := 200 }
                saml := "Base64 Encoded SAML Data" }, none)) :=
  verifyFactor_success_exit.1 (fun _ => vSuccessReply) testRequest 2
    (RawVerifyBody.mk { typ := "success", message := "Success", error := false, code := 200 }
      (some "Base64 Encoded SAML Data"))
    "Base64 Encoded SAML Data" (by decide) rfl rfl rfl rfl

/-- C8: result and error are mutually exclusive — whenever Generate or
VerifyFactor returns an error, the returned result is nil. -/
theorem result_error_exclusive :
    (∀ reply : GenerateReply,
        ((generate reply).2).isSome → (generate reply).1 = none) ∧
    (∀ (endpoint : Nat → VerifyReply) (req : VerifyFactorRequest) (n : Nat),
        ((verifyFactor endpoint req n).2.2).isSome →
        (verifyFactor endpoint req n).2.1 = none) := by
  constructor
  · intro reply h
    match hb : reply.body with
    | none => simp [generate, hb]
    | some raw =>
      by_cases he : raw.status.error
      · simp [generate, hb, he]
      · cases hd : raw.data <;> simp [generate, hb, he, hd] at h
  · intro endpoint req n h
    exact verifyLoop_exclusive endpoint n 1 req h

/-- Witness for C8 at the "error 40x" Generate reply and the always
pending VerifyFactor scenario. -/
theorem result_error_exclusive_witness :
    (generate error40xGenReply).1 = none ∧
      (verifyFactor (fun _ => vPendingReply) testRequest 2).2.1 = none :=
  ⟨result_error_exclusive.1 error40xGenReply (by decide),
   result_error_exclusive.2 (fun _ => vPendingReply) testRequest 2 (by decide)⟩

end SamlAssertion

namespace Login

open SamlAssertion

/-! Helper lemmas about the login flow. -/

/-- The trace of `loginSend` records the built request, whatever the
client answers. -/
theorem loginSend_trace (params : Parameters)
    (verifyFn : VerifyFactorRequest → Option VerifyFactorResponse × Option SAMLError)
    (factor : GenerateResponseFactor) (chose prompted : Bool)
    (device : GenerateResponseFactorDevice) (token : String) :
    (loginSend params verifyFn factor chose prompted device token).1 =
      ⟨chose, prompted,
        some (generateAssertionWithMFA params device.deviceID factor.stateToken token)⟩ := by
  unfold loginSend
  cases hv : verifyFn (generateAssertionWithMFA params device.deviceID factor.stateToken token) with
  | mk o1 o2 => cases o2 <;> cases o1 <;> simp [hv]

/-- What `loginVerify` records when the selected index resolves to a
device: the selection flag is passed through, the OTP prompt runs exactly
when the device requires a token, and any request it sends was built by
`generateAssertionWithMFA` from the prompted token (empty when no prompt
ran). -/
theorem loginVerify_parts (params : Parameters) (ev : Event)
    (verifyFn : VerifyFactorRequest → Option VerifyFactorResponse × Option SAMLError)
    (factor : GenerateResponseFactor) (chose : Bool) (i : Int)
    (d : GenerateResponseFactorDevice)
    (hd : deviceAt factor.devices i = some d) :
    (loginVerify params ev verifyFn factor chose i).1.choseDevice = chose ∧
    (loginVerify params ev verifyFn factor chose i).1.promptedOTP = d.requireOTPToken ∧
    (∀ req, (loginVerify params ev verifyFn factor chose i).1.sentRequest = some req →
      (∃ tok, req = generateAssertionWithMFA params d.deviceID factor.stateToken tok) ∧
      (d.requireOTPToken = false →
        req = generateAssertionWithMFA params d.deviceID factor.stateToken "") ∧
      (∀ tok, d.requireOTPToken = true → ev.inputMFAToken = .ok tok →
        req = generateAssertionWithMFA params d.deviceID factor.stateToken tok)) := by
  unfold loginVerify
  rw [hd]
  cases hr : d.requireOTPToken with
  | false =>
      simp only [hr, Bool.false_eq_true, if_false, loginSend_trace]
      refine ⟨trivial, trivial, fun req hreq => ?_⟩
      obtain rfl : generateAssertionWithMFA params d.deviceID factor.stateToken "" = req :=
        Option.some_injective _ hreq
      exact ⟨⟨"", rfl⟩, fun _ => rfl, fun tok h _ => h.elim⟩
  | true =>
      simp only [hr, eq_self_iff_true, if_true, loginSend_trace]
      cases he : ev.inputMFAToken with
      | error e =>
          refine ⟨rfl, rfl, fun req hreq => ?_⟩
          simp at hreq
      | ok token =>
          simp only [loginSend_trace]
          refine ⟨trivial, trivial, fun req hreq => ?_⟩
          obtain rfl :
              generateAssertionWithMFA params d.deviceID factor.stateToken token = req :=
            Option.some_injective _ hreq
          refine ⟨⟨token, rfl⟩, fun h => absurd h (by simp), fun tok _ hok => ?_⟩
          obtain rfl : token = tok := Except.ok.inj hok
          rfl

/-- Under an MFA challenge (empty SAML, a first factor) with a successful
device selection, `login` reduces to `loginVerify` at the selected
index, the selection flag recording whether the callback ran. -/
theorem login_to_loginVerify (params : Parameters) (ev : Event)
    (verifyFn : VerifyFactorRequest → Option VerifyFactorResponse × Option SAMLError)
    (resp : GenerateResponse) (factor : GenerateResponseFactor) (i : Int)
    (hs : resp.saml = "") (hf : resp.factors.get? 0 = some factor)
    (hsel : (if factor.devices.length > 1 then ev.chooseDeviceIndex factor.devices
             else Except.ok 0) = Except.ok i) :
    login params ev verifyFn resp =
      loginVerify params ev verifyFn factor (factor.devices.length > 1 : Bool) i := by
  unfold login
  rw [hs, hf]
  by_cases hlen : factor.devices.length > 1
  · rw [if_pos hlen] at hsel
    simp [hlen, hsel]
  · rw [if_neg hlen] at hsel
    obtain rfl : (0 : Int) = i := Except.ok.inj hsel
    simp [hlen]

/-! Concrete fixtures for the login flow. -/

/-- Concrete login parameters. -/
def cxParams : Parameters :=
  { usernameOrEmail := "username-or-email", password := "password"
    appID := "app-id", subdomain := "subdomain"
    principalArn := "principal-arn", roleArn := "role-arn"
    durationSeconds := 3600 }

/-- A single OTP-requiring device, as produced by expansion of the
Google Authenticator fixture. -/
def cxDevice : GenerateResponseFactorDevice :=
  { deviceID := 666666, deviceType := "Google Authenticator", requireOTPToken := true }

/-- A factor carrying exactly the one device above. -/
def cxFactor : GenerateResponseFactor :=
  { stateToken := "state_token", devices := [cxDevice]
    callbackURL := "https://api.us.onelogin.com/api/1/saml_assertion/verify_factor"
    user := none }

/-- A challenge response: empty SAML, one factor. -/
def cxResp : GenerateResponse :=
  { status := mfaStatus, saml := "", factors := [cxFactor] }

/-- A challenge response with empty SAML and no factors at all. -/
def cxEmptyResp : GenerateResponse :=
  { status := mfaStatus, saml := "", factors := [] }

/-- An event whose OTP prompt returns the empty string. -/
def cxEvent : Event :=
  { chooseDeviceIndex := fun _ => .ok 0, inputMFAToken := .ok "" }

/-- A client stub whose VerifyFactor always times out. -/
def cxVerifyFn : VerifyFactorRequest → Option VerifyFactorResponse × Option SAMLError :=
  fun _ => (none, some .mfaTimeoutError)

/-- C7: over a challenge response whose device selection succeeds, the
device-selection callback is invoked exactly when the factor has more
than one device (with one device, index 0 is selected without invoking
it), and the OTP prompt is invoked exactly when the selected device
requires an OTP token. -/
theorem login_callback_iff (params : Parameters) (ev : Event)
    (verifyFn : VerifyFactorRequest → Option VerifyFactorResponse × Option SAMLError)
    (resp : GenerateResponse) (factor : GenerateResponseFactor) (i : Int)
    (d : GenerateResponseFactorDevice)
    (hs : resp.saml = "")
    (hf : resp.factors.get? 0 = some factor)
    (hsel : (if factor.devices.length > 1 then ev.chooseDeviceIndex factor.devices
             else Except.ok 0) = Except.ok i)
    (hd : deviceAt factor.devices i = some d) :
    (login params ev verifyFn resp).1.choseDevice = (factor.devices.length > 1 : Bool) ∧
    (login params ev verifyFn resp).1.promptedOTP = d.requireOTPToken := by
  rw [login_to_loginVerify params ev verifyFn resp factor i hs hf hsel]
  exact ⟨(loginVerify_parts params ev verifyFn factor _ i d hd).1,
    (loginVerify_parts params ev verifyFn factor _ i d hd).2.1⟩

/-- Witness for C7: one device requiring an OTP token — the selector is
not invoked, the OTP prompt is. -/
theorem login_callback_iff_witness :
    (login cxParams cxEvent cxVerifyFn cxResp).1.choseDevice = false ∧
    (login cxParams cxEvent cxVerifyFn cxResp).1.promptedOTP = true :=
  login_callback_iff cxParams cxEvent cxVerifyFn cxResp cxFactor 0 cxDevice
    rfl rfl rfl rfl

/-- C9: the login flow has no emptiness check — with empty SAML and an
empty factor list it panics on the out-of-range index Factors[0] instead
of returning an error; and only the first factor is ever consulted: two
responses agreeing on SAML and on the first factor produce identical
behaviour whatever the remaining factors are. -/
theorem login_first_factor_only :
    (∀ (params : Parameters) (ev : Event)
        (verifyFn : VerifyFactorRequest → Option VerifyFactorResponse × Option SAMLError)
        (resp : GenerateResponse), resp.saml = "" → resp.factors = [] →
        login params ev verifyFn resp = (⟨false, false, none⟩, .panic)) ∧
    (∀ (params : Parameters) (ev : Event)
        (verifyFn : VerifyFactorRequest → Option VerifyFactorResponse × Option SAMLError)
        (resp resp' : GenerateResponse), resp.saml = resp'.saml →
        resp.factors.get? 0 = resp'.factors.get? 0 →
        login params ev verifyFn resp = login params ev verifyFn resp') := by
  constructor
  · intro params ev verifyFn resp hs hf
    simp [login, hs, hf]
  · intro params ev verifyFn resp resp' h1 h2
    unfold login
    rw [h1, h2]

/-- Witness for C9: the empty-factors challenge response panics. -/
theorem login_first_factor_only_witness :
    login cxParams cxEvent cxVerifyFn cxEmptyResp =
      (⟨false, false, none⟩, .panic) :=
  login_first_factor_only.1 cxParams cxEvent cxVerifyFn cxEmptyResp rfl rfl

/-- C10 counterexample: the claim says an OTP device always yields a
request with DoNotNotify true, but when the user enters the empty token
the built request carries OtpToken empty and DoNotNotify false — a push
is triggered for an OTP device. -/
theorem login_otp_push_counterexample :
    cxDevice.requireOTPToken = true ∧
    cxEvent.inputMFAToken = Except.ok "" ∧
    (login cxParams cxEvent cxVerifyFn cxResp).1.sentRequest =
      some { appID := "app-id", deviceID := "666666", stateToken := "state_token"
             otpToken := "", doNotNotify := false } := by
  refine ⟨rfl, rfl, ?_⟩
  rfl

/-- C10 (amended): the built verification request sets DoNotNotify true
exactly when its OTP token is non-empty; a device not requiring a token
yields OtpToken empty and DoNotNotify false; an OTP device yields the
entered token, with DoNotNotify true exactly when that token is
non-empty. -/
theorem login_doNotNotify_iff_token (params : Parameters) (ev : Event)
    (verifyFn : VerifyFactorRequest → Option VerifyFactorResponse × Option SAMLError)
    (resp : GenerateResponse) (factor : GenerateResponseFactor) (i : Int)
    (d : GenerateResponseFactorDevice) (req : VerifyFactorRequest)
    (hs : resp.saml = "")
    (hf : resp.factors.get? 0 = some factor)
    (hsel : (if factor.devices.length > 1 then ev.chooseDeviceIndex factor.devices
             else Except.ok 0) = Except.ok i)
    (hd : deviceAt factor.devices i = some d)
    (hreq : (login params ev verifyFn resp).1.sentRequest = some req) :
    req.doNotNotify = (req.otpToken ≠ "" : Bool) ∧
    (d.requireOTPToken = false → req.otpToken = "" ∧ req.doNotNotify = false) ∧
    (∀ tok, d.requireOTPToken = true → ev.inputMFAToken = .ok tok →
      req.otpToken = tok ∧ req.doNotNotify = (tok ≠ "" : Bool)) := by
  rw [login_to_loginVerify params ev verifyFn resp factor i hs hf hsel] at hreq
  have h3 := (loginVerify_parts params ev verifyFn factor _ i d hd).2.2 req hreq
  refine ⟨?_, fun hfalse => ?_, fun tok htrue hok => ?_⟩
  · obtain ⟨tok, rfl⟩ := h3.1
    rfl
  · obtain rfl := h3.2.1 hfalse
    exact ⟨rfl, rfl⟩
  · obtain rfl := h3.2.2 tok htrue hok
    exact ⟨rfl, rfl⟩

/-- Witness for C10 (amended) at the empty-entered-token scenario: the
request the flow builds there carries the entered (empty) token and
DoNotNotify false. -/
theorem login_doNotNotify_iff_token_witness :
    (VerifyFactorRequest.mk "app-id" "666666" "state_token" "" false).otpToken = "" ∧
    (VerifyFactorRequest.mk "app-id" "666666" "state_token" "" false).doNotNotify =
      (("" : String) ≠ "" : Bool) :=
  (login_doNotNotify_iff_token cxParams cxEvent cxVerifyFn cxResp cxFactor 0 cxDevice
    (VerifyFactorRequest.mk "app-id" "666666" "state_token" "" false)
    rfl rfl rfl rfl rfl).2.2 "" rfl rfl

end Login
